import Mathlib

/-!
# Pluralsight course repository (`pluralsight/course_darwin.go`)

A shallow embedding of the read-reconstruction logic of `CourseRepository`:
`getClipsForModule`, `getAuthorForCourse`, `getModulesForCourse`, `FindAll` and
`ClipCount`, together with a relational model of the sqlite store they query.

Layers:

* `DB` is what the Go code sees of `database/sql`: every `db.Query` either
  reports an error or hands back a cursor, and a cursor is the list of outcomes
  of `raw.Next()`/`raw.Scan(..)`, one per row. The store is only read, so the
  outcome of a query is a function of the query.
* `Store` is the content of the five tables; `Store.db` gives the cursors the
  five SQL statements of the source select from it.

Modelling conventions:

* a Go `error` result is an `Option Error` (`none` is `nil`);
* a function that mutates its pointer argument returns the mutated value
  together with the error;
* Go `int` is `Int` (no arithmetic here can overflow 64 bits on a store that
  sqlite can hold);
* a `nil` slice and an empty slice are both `[]`;
* the non-owning back references `Clip.Module` and `Module.Course` are pointers
  and are left out;
* failures on a store are explicit: `fail q` is the error `db.Query` reports for
  the statement `q`, the `scanErr` of a row is the error `Scan` reports on it,
  and `stop q = some n` says that the row iteration of `q` fails after `n` rows:
  `raw.Next()` then returns false, and since the source never reads `raw.Err()`
  its loop just sees a cursor that ends there;
* `Store.db` is the handle on which every row iteration reaches the end of the
  selected rows, `Store.dbIter` the handle on which iterations may fail too;
* columns are not NULL: a missing parent key behaves as a key that no row has;
* `order by` keeps rows with equal ordinals in table order (the properties
  below only use that the result is a sorted permutation of the selected rows).
-/

namespace Pluralsight

/-! ## Errors and result types -/

/-- The `error` values the source can return: its own `ErrNoAuthor`
("author not found"), `sql.ErrNoRows`, and whatever else `database/sql` or the
driver reports, told apart by a code. -/
inductive Error where
  | ErrNoAuthor
  | ErrNoRows
  | driver (code : Nat)
  deriving DecidableEq, Repr

/-- Modelled from the spec: the type declaration `decryptor.Clip` (position,
title, external identifier); the back reference to the owning module is left out. -/
structure Clip where
  Order : Int
  Title : String
  ID : String
  deriving DecidableEq, Repr

/-- Modelled from the spec: the type declaration `decryptor.Module` (position,
title, external identifier, author, ordered clips); the back reference to the
owning course is left out. -/
structure Module where
  Order : Int
  Title : String
  ID : String
  Author : String
  Clips : List Clip
  deriving DecidableEq, Repr

/-- Modelled from the spec: the type declaration `decryptor.Course` (title,
external identifier, ordered modules). -/
structure Course where
  Title : String
  ID : String
  Modules : List Module
  deriving DecidableEq, Repr

/-- The repository: the path of the sqlite file. -/
structure CourseRepository where
  Path : String
  deriving DecidableEq, Repr

/-- Go `unknownCount = -1`. -/
def unknownCount : Int := -1

/-- Go `unknownStr = ""`. -/
def unknownStr : String := ""

/-! ## The database as the code sees it -/

/-- A cursor (`*sql.Rows`): for each row that `raw.Next()` reaches, what
`raw.Scan` gives, the scanned columns or an error. -/
abbrev Rows (α : Type) := List (Except Error α)

/-- An open database handle: the outcome of each `db.Query` the source issues.
`courseQuery` is `select Z_PK, ZTITLE, ZID from ZCOURSEHEADERCD`, `authorQuery cID`
the author lookup for a course, `moduleQuery cID` and `clipQuery modID` the two
ordered enumerations, `countQuery` is `select count(*) from ZCLIPCD`. -/
structure DB where
  courseQuery : Except Error (Rows (Int × String × String))
  authorQuery : Int → Except Error (Rows String)
  moduleQuery : Int → Except Error (Rows (Int × String × String))
  clipQuery : Int → Except Error (Rows (String × String))
  countQuery : Except Error (Rows Int)

/-! ## The source functions -/

/-- The `for raw.Next()` loop of `getClipsForModule`: `ord` is the running
position, `mod` the module being filled. -/
def clipLoop : Int → Module → Rows (String × String) → Module × Option Error
  | _, mod, [] => (mod, none)
  | _, mod, Except.error err :: _ => (mod, some err)
  | ord, mod, Except.ok (title, id) :: rest =>
      clipLoop (ord + 1)
        { mod with Clips := mod.Clips ++ [{ Order := ord, Title := title, ID := id }] } rest

/-- Go `getClipsForModule(modID, mod, db)`: the module as the call leaves it,
and the returned error. -/
def getClipsForModule (modID : Int) (mod : Module) (db : DB) : Module × Option Error :=
  match db.clipQuery modID with
  | Except.error err => (mod, some err)
  | Except.ok raw => clipLoop 1 mod raw

/-- Go `getAuthorForCourse(cID, db)`. -/
def getAuthorForCourse (cID : Int) (db : DB) : String × Option Error :=
  match db.authorQuery cID with
  | Except.error err => (unknownStr, some err)
  | Except.ok [] => (unknownStr, some Error.ErrNoAuthor)
  | Except.ok (Except.error err :: _) => (unknownStr, some err)
  | Except.ok (Except.ok author :: _) => (author, none)

/-- The `for raw.Next()` loop of `getModulesForCourse`. -/
def moduleLoop (db : DB) (author : String) :
    Int → Course → Rows (Int × String × String) → Course × Option Error
  | _, c, [] => (c, none)
  | _, c, Except.error err :: _ => (c, some err)
  | ord, c, Except.ok (id, title, uid) :: rest =>
      match getClipsForModule id
          { Order := ord, Title := title, ID := uid, Author := author, Clips := [] } db with
      | (_, some err) => (c, some err)
      | (module, none) => moduleLoop db author (ord + 1) { c with Modules := c.Modules ++ [module] } rest

/-- Go `getModulesForCourse(cID, c, db)`: the course as the call leaves it, and
the returned error. -/
def getModulesForCourse (cID : Int) (c : Course) (db : DB) : Course × Option Error :=
  match getAuthorForCourse cID db with
  | (_, some err) => (c, some err)
  | (author, none) =>
      match db.moduleQuery cID with
      | Except.error err => (c, some err)
      | Except.ok raw => moduleLoop db author 1 c raw

/-- The `for raw.Next()` loop of `FindAll`; `courses` is the slice built so far. -/
def courseLoop (db : DB) : List Course → Rows (Int × String × String) → List Course × Option Error
  | courses, [] => (courses, none)
  | courses, Except.error err :: _ => (courses, some err)
  | courses, Except.ok (id, title, uid) :: rest =>
      match getModulesForCourse id { Title := title, ID := uid, Modules := [] } db with
      | (_, some err) => (courses, some err)
      | (course, none) => courseLoop db (courses ++ [course]) rest

/-- Go `(r *CourseRepository) FindAll()`; `sqlOpen` is `sql.Open("sqlite3", ·)`. -/
def FindAll (sqlOpen : String → Except Error DB) (r : CourseRepository) :
    List Course × Option Error :=
  match sqlOpen r.Path with
  | Except.error err => ([], some err)
  | Except.ok db =>
      match db.courseQuery with
      | Except.error err => ([], some err)
      | Except.ok raw => courseLoop db [] raw

/-- Go `(r *CourseRepository) ClipCount()`. -/
def ClipCount (sqlOpen : String → Except Error DB) (r : CourseRepository) :
    Int × Option Error :=
  match sqlOpen r.Path with
  | Except.error err => (unknownCount, some err)
  | Except.ok db =>
      match db.countQuery with
      | Except.error err => (unknownCount, some err)
      | Except.ok [] => (unknownCount, some Error.ErrNoRows)
      | Except.ok (Except.error err :: _) => (unknownCount, some err)
      | Except.ok (Except.ok count :: _) => (count, none)

/-! ## The store -/

/-- A row of `ZCOURSEHEADERCD`. `scanErr` is what `raw.Scan` reports on the
row's selected columns (`none` when they scan), whatever in the stored values
causes it. -/
structure CourseRow where
  Z_PK : Int
  ZTITLE : String
  ZID : String
  scanErr : Option Error := none
  deriving DecidableEq, Repr

/-- A row of `ZMODULECD`: `ZCOURSE` is the parent-course key, `Z_FOK_COURSE` the
per-parent ordinal. -/
structure ModuleRow where
  Z_PK : Int
  ZTITLE : String
  ZID : String
  ZCOURSE : Int
  Z_FOK_COURSE : Int
  scanErr : Option Error := none
  deriving DecidableEq, Repr

/-- A row of `ZCLIPCD`: `ZMODULE` is the parent-module key, `Z_FOK_MODULE` the
per-parent ordinal. -/
structure ClipRow where
  ZTITLE : String
  ZID : String
  ZMODULE : Int
  Z_FOK_MODULE : Int
  scanErr : Option Error := none
  deriving DecidableEq, Repr

/-- A row of the association table `Z_3COURSEHEADERS`. -/
structure AssocRow where
  Z_3AUTHORS : Int
  Z_14COURSEHEADERS : Int
  deriving DecidableEq, Repr

/-- A row of `ZAUTHORHEADERCD`; `ZID` is the author's name as the source reads it. -/
structure AuthorRow where
  Z_PK : Int
  ZID : String
  scanErr : Option Error := none
  deriving DecidableEq, Repr

/-- The content of the store: each table as the list of its rows in the order
a scan of the table yields them. -/
structure Store where
  ZCOURSEHEADERCD : List CourseRow
  ZMODULECD : List ModuleRow
  ZCLIPCD : List ClipRow
  Z_3COURSEHEADERS : List AssocRow
  ZAUTHORHEADERCD : List AuthorRow
  deriving Repr

/-- The statements the source issues, as keys for query failures. -/
inductive Query where
  | courses
  | author (cID : Int)
  | modules (cID : Int)
  | clips (modID : Int)
  | count
  deriving DecidableEq, Repr

/-- The rows of `... from ZCLIPCD where ZMODULE=modID order by Z_FOK_MODULE asc`
(rows with equal ordinals stay in table order). -/
def Store.selectClips (s : Store) (modID : Int) : List ClipRow :=
  (s.ZCLIPCD.filter (fun r => r.ZMODULE = modID)).insertionSort
    (fun a b => a.Z_FOK_MODULE ≤ b.Z_FOK_MODULE)

/-- The rows of `... from ZMODULECD where ZCOURSE=cID order by Z_FOK_COURSE asc`
(rows with equal ordinals stay in table order). -/
def Store.selectModules (s : Store) (cID : Int) : List ModuleRow :=
  (s.ZMODULECD.filter (fun r => r.ZCOURSE = cID)).insertionSort
    (fun a b => a.Z_FOK_COURSE ≤ b.Z_FOK_COURSE)

/-- The values of `select Z_3AUTHORS from Z_3COURSEHEADERS where Z_14COURSEHEADERS=cID`. -/
def Store.authorKeys (s : Store) (cID : Int) : List Int :=
  (s.Z_3COURSEHEADERS.filter (fun r => r.Z_14COURSEHEADERS = cID)).map (fun r => r.Z_3AUTHORS)

/-- The rows of `... from ZAUTHORHEADERCD where Z_PK in (select Z_3AUTHORS ...)`. -/
def Store.selectAuthors (s : Store) (cID : Int) : List AuthorRow :=
  s.ZAUTHORHEADERCD.filter (fun a => a.Z_PK ∈ s.authorKeys cID)

/-- The cursor over a list of selected rows: each row scans to `cols` of it
unless its scan fails. -/
def cursor {ρ α : Type} (scanErr : ρ → Option Error) (cols : ρ → α) (rows : List ρ) : Rows α :=
  rows.map (fun r => match scanErr r with
    | some err => Except.error err
    | none => Except.ok (cols r))

/-- The outcome of a query: the error the driver reports for it, or the cursor. -/
def runQuery {α : Type} (fail : Query → Option Error) (q : Query) (rows : Rows α) :
    Except Error (Rows α) :=
  match fail q with
  | some err => Except.error err
  | none => Except.ok rows

/-- The database handle on a store whose row iterations all reach the end of
the selected rows; `fail q` is the error `db.Query` reports for the statement
`q`, if it does. -/
def Store.db (s : Store) (fail : Query → Option Error) : DB where
  courseQuery := runQuery fail Query.courses
    (cursor CourseRow.scanErr (fun r => (r.Z_PK, r.ZTITLE, r.ZID)) s.ZCOURSEHEADERCD)
  authorQuery := fun cID => runQuery fail (Query.author cID)
    (cursor AuthorRow.scanErr (fun r => r.ZID) (s.selectAuthors cID))
  moduleQuery := fun cID => runQuery fail (Query.modules cID)
    (cursor ModuleRow.scanErr (fun r => (r.Z_PK, r.ZTITLE, r.ZID)) (s.selectModules cID))
  clipQuery := fun modID => runQuery fail (Query.clips modID)
    (cursor ClipRow.scanErr (fun r => (r.ZTITLE, r.ZID)) (s.selectClips modID))
  countQuery := runQuery fail Query.count [Except.ok (s.ZCLIPCD.length : Int)]

/-- No query fails. -/
def noFail : Query → Option Error := fun _ => none

/-- The example store of the spec: one course ("C1", "Go"), author "Jane", two
modules stored with ordinals 2 ("Advanced") then 1 ("Basics"). -/
def exampleStore : Store where
  ZCOURSEHEADERCD := [{ Z_PK := 7, ZTITLE := "Go", ZID := "C1" }]
  ZMODULECD := [
    { Z_PK := 1, ZTITLE := "Advanced", ZID := "M-adv", ZCOURSE := 7, Z_FOK_COURSE := 2 },
    { Z_PK := 2, ZTITLE := "Basics", ZID := "M-bas", ZCOURSE := 7, Z_FOK_COURSE := 1 }]
  ZCLIPCD := [
    { ZTITLE := "b", ZID := "K2", ZMODULE := 2, Z_FOK_MODULE := 5 },
    { ZTITLE := "a", ZID := "K1", ZMODULE := 2, Z_FOK_MODULE := 3 },
    { ZTITLE := "c", ZID := "K3", ZMODULE := 1, Z_FOK_MODULE := 0 }]
  Z_3COURSEHEADERS := [{ Z_3AUTHORS := 4, Z_14COURSEHEADERS := 7 }]
  ZAUTHORHEADERCD := [{ Z_PK := 4, ZID := "Jane" }]

/-! ## What a successful assembly yields -/

/-- The clips built from selected clip rows, numbered from `ord`. -/
def clipsFrom : Int → List ClipRow → List Clip
  | _, [] => []
  | ord, r :: rs => { Order := ord, Title := r.ZTITLE, ID := r.ZID } :: clipsFrom (ord + 1) rs

/-- The modules built from selected module rows, numbered from `ord`. -/
def Store.modulesFrom (s : Store) (author : String) : Int → List ModuleRow → List Module
  | _, [] => []
  | ord, r :: rs =>
      { Order := ord, Title := r.ZTITLE, ID := r.ZID, Author := author,
        Clips := clipsFrom 1 (s.selectClips r.Z_PK) } :: s.modulesFrom author (ord + 1) rs

/-- The name on the first row of the author lookup (`unknownStr` when it has no row). -/
def Store.authorOf (s : Store) (cID : Int) : String :=
  match s.selectAuthors cID with
  | [] => unknownStr
  | a :: _ => a.ZID

/-- The course built from a course row. -/
def Store.courseOf (s : Store) (r : CourseRow) : Course :=
  { Title := r.ZTITLE, ID := r.ZID,
    Modules := s.modulesFrom (s.authorOf r.Z_PK) 1 (s.selectModules r.Z_PK) }

/-- The clip enumeration of a module meets no failure. -/
def Store.clipsOk (s : Store) (fail : Query → Option Error) (modID : Int) : Prop :=
  fail (Query.clips modID) = none ∧ ∀ k ∈ s.selectClips modID, k.scanErr = none

/-- The module enumeration of a course, clips included, meets no failure. -/
def Store.modulesOk (s : Store) (fail : Query → Option Error) (cID : Int) : Prop :=
  fail (Query.modules cID) = none ∧
    ∀ m ∈ s.selectModules cID, m.scanErr = none ∧ s.clipsOk fail m.Z_PK

/-- The author lookup of a course yields a first row, and it scans. -/
def Store.authorOk (s : Store) (fail : Query → Option Error) (cID : Int) : Prop :=
  fail (Query.author cID) = none ∧
    ∃ a rest, s.selectAuthors cID = a :: rest ∧ a.scanErr = none

/-- The whole processing of a course row meets no failure. -/
def Store.courseOk (s : Store) (fail : Query → Option Error) (r : CourseRow) : Prop :=
  r.scanErr = none ∧ s.authorOk fail r.Z_PK ∧ s.modulesOk fail r.Z_PK

/-- The cursor of the course enumeration. -/
def courseCursor (rows : List CourseRow) : Rows (Int × String × String) :=
  cursor CourseRow.scanErr (fun r => (r.Z_PK, r.ZTITLE, r.ZID)) rows

/-- Opening the store: `sql.Open` hands back the handle on `s`. -/
def sqlOpenOn (s : Store) (fail : Query → Option Error) : String → Except Error DB :=
  fun _ => Except.ok (s.db fail)

/-- The store with its course table replaced. -/
def Store.withCourses (s : Store) (rows : List CourseRow) : Store :=
  { s with ZCOURSEHEADERCD := rows }

/-- Every row of every scanned table scans. -/
def Store.allScan (s : Store) : Prop :=
  (∀ r ∈ s.ZCOURSEHEADERCD, r.scanErr = none) ∧ (∀ m ∈ s.ZMODULECD, m.scanErr = none) ∧
    (∀ k ∈ s.ZCLIPCD, k.scanErr = none) ∧ (∀ a ∈ s.ZAUTHORHEADERCD, a.scanErr = none)

/-- The course with key `cID` has an association row that leads to an author row. -/
def Store.hasAuthor (s : Store) (cID : Int) : Prop :=
  ∃ l ∈ s.Z_3COURSEHEADERS, l.Z_14COURSEHEADERS = cID ∧
    ∃ a ∈ s.ZAUTHORHEADERCD, a.Z_PK = l.Z_3AUTHORS

instance clipOrdinalTotal : IsTotal ClipRow (fun a b => a.Z_FOK_MODULE ≤ b.Z_FOK_MODULE) :=
  ⟨fun a b => le_total a.Z_FOK_MODULE b.Z_FOK_MODULE⟩

instance clipOrdinalTrans : IsTrans ClipRow (fun a b => a.Z_FOK_MODULE ≤ b.Z_FOK_MODULE) :=
  ⟨fun _ _ _ hab hbc => le_trans hab hbc⟩

instance moduleOrdinalTotal : IsTotal ModuleRow (fun a b => a.Z_FOK_COURSE ≤ b.Z_FOK_COURSE) :=
  ⟨fun a b => le_total a.Z_FOK_COURSE b.Z_FOK_COURSE⟩

instance moduleOrdinalTrans : IsTrans ModuleRow (fun a b => a.Z_FOK_COURSE ≤ b.Z_FOK_COURSE) :=
  ⟨fun _ _ _ hab hbc => le_trans hab hbc⟩

/-- The clip row belongs to a module row that belongs to a course row. -/
def Store.linked (s : Store) (k : ClipRow) : Prop :=
  ∃ m ∈ s.ZMODULECD, m.Z_PK = k.ZMODULE ∧ ∃ r ∈ s.ZCOURSEHEADERCD, r.Z_PK = m.ZCOURSE

instance Store.linkedDecidable (s : Store) (k : ClipRow) : Decidable (s.linked k) := by
  unfold Store.linked
  infer_instance

/-- A store with three courses of which the second has no association row. -/
def missingAuthorStore : Store where
  ZCOURSEHEADERCD := [{ Z_PK := 7, ZTITLE := "Go", ZID := "C1" },
    { Z_PK := 8, ZTITLE := "Rust", ZID := "C2" }, { Z_PK := 9, ZTITLE := "Zig", ZID := "C3" }]
  ZMODULECD := [
    { Z_PK := 1, ZTITLE := "Basics", ZID := "M1", ZCOURSE := 7, Z_FOK_COURSE := 0 },
    { Z_PK := 2, ZTITLE := "Ownership", ZID := "M2", ZCOURSE := 8, Z_FOK_COURSE := 0 }]
  ZCLIPCD := [
    { ZTITLE := "Intro", ZID := "K1", ZMODULE := 1, Z_FOK_MODULE := 0 },
    { ZTITLE := "Move", ZID := "K2", ZMODULE := 2, Z_FOK_MODULE := 0 }]
  Z_3COURSEHEADERS := [{ Z_3AUTHORS := 4, Z_14COURSEHEADERS := 7 },
    { Z_3AUTHORS := 4, Z_14COURSEHEADERS := 9 }]
  ZAUTHORHEADERCD := [{ Z_PK := 4, ZID := "Jane" }]

/-- A store with two courses by "Jane" of which the first has no module row. -/
def emptyCourseStore : Store where
  ZCOURSEHEADERCD := [{ Z_PK := 7, ZTITLE := "Go", ZID := "C1" },
    { Z_PK := 8, ZTITLE := "Rust", ZID := "C2" }]
  ZMODULECD := [
    { Z_PK := 2, ZTITLE := "Ownership", ZID := "M2", ZCOURSE := 8, Z_FOK_COURSE := 0 }]
  ZCLIPCD := [{ ZTITLE := "Move", ZID := "K2", ZMODULE := 2, Z_FOK_MODULE := 0 }]
  Z_3COURSEHEADERS := [{ Z_3AUTHORS := 4, Z_14COURSEHEADERS := 7 },
    { Z_3AUTHORS := 4, Z_14COURSEHEADERS := 8 }]
  ZAUTHORHEADERCD := [{ Z_PK := 4, ZID := "Jane" }]

/-- The module query of course 7 fails with a driver error; no other query fails. -/
def moduleQueryFails : Query → Option Error :=
  fun q => if q = Query.modules 7 then some (Error.driver 1) else none

/-- The repository used in the examples. -/
def library : CourseRepository := { Path := "library.db" }

instance Store.allScanDecidable (s : Store) : Decidable s.allScan := by
  unfold Store.allScan
  infer_instance

instance Store.hasAuthorDecidable (s : Store) (cID : Int) : Decidable (s.hasAuthor cID) := by
  unfold Store.hasAuthor
  infer_instance

/-! ## Row iterations that fail -/

/-- What a loop reads from a cursor whose iteration fails after `n` rows
(`some n`): `raw.Next()` returns false there, so the cursor ends after `n` rows;
`none` is an iteration that reaches the end. -/
def cutShort {α : Type} : Option Nat → List α → List α
  | none, rows => rows
  | some n, rows => rows.take n

/-- The database handle on a store when row iterations may fail as well:
`stop q` is the number of rows after which the iteration of `q` fails, if it
does. -/
def Store.dbIter (s : Store) (fail : Query → Option Error) (stop : Query → Option Nat) : DB where
  courseQuery := runQuery fail Query.courses (cutShort (stop Query.courses)
    (cursor CourseRow.scanErr (fun r => (r.Z_PK, r.ZTITLE, r.ZID)) s.ZCOURSEHEADERCD))
  authorQuery := fun cID => runQuery fail (Query.author cID) (cutShort (stop (Query.author cID))
    (cursor AuthorRow.scanErr (fun r => r.ZID) (s.selectAuthors cID)))
  moduleQuery := fun cID => runQuery fail (Query.modules cID) (cutShort (stop (Query.modules cID))
    (cursor ModuleRow.scanErr (fun r => (r.Z_PK, r.ZTITLE, r.ZID)) (s.selectModules cID)))
  clipQuery := fun modID => runQuery fail (Query.clips modID) (cutShort (stop (Query.clips modID))
    (cursor ClipRow.scanErr (fun r => (r.ZTITLE, r.ZID)) (s.selectClips modID)))
  countQuery := runQuery fail Query.count (cutShort (stop Query.count)
    [Except.ok (s.ZCLIPCD.length : Int)])

/-- No row iteration fails. -/
def noStop : Query → Option Nat := fun _ => none

theorem cursor_nil {ρ α : Type} (se : ρ → Option Error) (cols : ρ → α) :
    cursor se cols [] = [] := rfl

theorem cursor_cons {ρ α : Type} (se : ρ → Option Error) (cols : ρ → α) (r : ρ) (rs : List ρ) :
    cursor se cols (r :: rs) =
      (match se r with
        | some err => Except.error err
        | none => Except.ok (cols r)) :: cursor se cols rs := rfl

theorem clipLoop_ok (rows : List ClipRow) :
    ∀ (ord : Int) (mod : Module), (∀ k ∈ rows, k.scanErr = none) →
      clipLoop ord mod (cursor ClipRow.scanErr (fun r => (r.ZTITLE, r.ZID)) rows) =
        ({ mod with Clips := mod.Clips ++ clipsFrom ord rows }, none) := by
  induction rows with
  | nil => intro ord mod _; simp [cursor_nil, clipLoop, clipsFrom]
  | cons r rs ih =>
    intro ord mod h
    have hr : r.scanErr = none := h r (List.mem_cons_self _ _)
    have hrs : ∀ k ∈ rs, k.scanErr = none := fun k hk => h k (List.mem_cons_of_mem _ hk)
    rw [cursor_cons, hr]
    simp only [clipLoop]
    rw [ih _ _ hrs]
    simp [clipsFrom]

theorem clipLoop_none (rows : List ClipRow) :
    ∀ (ord : Int) (mod : Module),
      (clipLoop ord mod (cursor ClipRow.scanErr (fun r => (r.ZTITLE, r.ZID)) rows)).2 = none →
        ∀ k ∈ rows, k.scanErr = none := by
  induction rows with
  | nil => intro _ _ _ k hk; cases hk
  | cons r rs ih =>
    intro ord mod h k hk
    rw [cursor_cons] at h
    cases hr : r.scanErr with
    | some e => rw [hr] at h; simp [clipLoop] at h
    | none =>
      rw [hr] at h
      simp only [clipLoop] at h
      rcases List.mem_cons.mp hk with rfl | hk
      · exact hr
      · exact ih _ _ h k hk

theorem getClipsForModule_ok (s : Store) (fail : Query → Option Error) (modID : Int)
    (mod : Module) (h : s.clipsOk fail modID) :
    getClipsForModule modID mod (s.db fail) =
      ({ mod with Clips := mod.Clips ++ clipsFrom 1 (s.selectClips modID) }, none) := by
  simp only [getClipsForModule, Store.db, runQuery, h.1]
  exact clipLoop_ok _ _ _ h.2

theorem getClipsForModule_none (s : Store) (fail : Query → Option Error) (modID : Int)
    (mod : Module) (h : (getClipsForModule modID mod (s.db fail)).2 = none) :
    s.clipsOk fail modID := by
  simp only [getClipsForModule, Store.db, runQuery] at h
  cases hq : fail (Query.clips modID) with
  | some e => rw [hq] at h; simp at h
  | none =>
    rw [hq] at h
    exact ⟨hq, clipLoop_none _ _ _ h⟩

theorem moduleLoop_ok (s : Store) (fail : Query → Option Error) (author : String)
    (rows : List ModuleRow) :
    ∀ (ord : Int) (c : Course),
      (∀ m ∈ rows, m.scanErr = none ∧ s.clipsOk fail m.Z_PK) →
      moduleLoop (s.db fail) author ord c
          (cursor ModuleRow.scanErr (fun r => (r.Z_PK, r.ZTITLE, r.ZID)) rows) =
        ({ c with Modules := c.Modules ++ s.modulesFrom author ord rows }, none) := by
  induction rows with
  | nil => intro ord c _; simp [cursor_nil, moduleLoop, Store.modulesFrom]
  | cons r rs ih =>
    intro ord c h
    have hr := h r (List.mem_cons_self _ _)
    have hrs : ∀ m ∈ rs, m.scanErr = none ∧ s.clipsOk fail m.Z_PK :=
      fun m hm => h m (List.mem_cons_of_mem _ hm)
    rw [cursor_cons, hr.1]
    simp only [moduleLoop]
    rw [getClipsForModule_ok s fail _ _ hr.2]
    simp only []
    rw [ih _ _ hrs]
    simp [Store.modulesFrom]

theorem moduleLoop_none (s : Store) (fail : Query → Option Error) (author : String)
    (rows : List ModuleRow) :
    ∀ (ord : Int) (c : Course),
      (moduleLoop (s.db fail) author ord c
          (cursor ModuleRow.scanErr (fun r => (r.Z_PK, r.ZTITLE, r.ZID)) rows)).2 = none →
      ∀ m ∈ rows, m.scanErr = none ∧ s.clipsOk fail m.Z_PK := by
  induction rows with
  | nil => intro _ _ _ m hm; cases hm
  | cons r rs ih =>
    intro ord c h m hm
    rw [cursor_cons] at h
    cases hr : r.scanErr with
    | some e => rw [hr] at h; simp [moduleLoop] at h
    | none =>
      rw [hr] at h
      simp only [moduleLoop] at h
      cases hg : getClipsForModule r.Z_PK
          { Order := ord, Title := r.ZTITLE, ID := r.ZID, Author := author, Clips := [] }
          (s.db fail) with
      | mk md e =>
        rw [hg] at h
        cases e with
        | some e => simp at h
        | none =>
          simp only [] at h
          have hk : s.clipsOk fail r.Z_PK :=
            getClipsForModule_none s fail _ _ (by rw [hg])
          rcases List.mem_cons.mp hm with rfl | hm
          · exact ⟨hr, hk⟩
          · exact ih _ _ h m hm

theorem getAuthorForCourse_ok (s : Store) (fail : Query → Option Error) (cID : Int)
    (h : s.authorOk fail cID) :
    getAuthorForCourse cID (s.db fail) = (s.authorOf cID, none) := by
  obtain ⟨hq, a, rest, hsel, ha⟩ := h
  simp [getAuthorForCourse, Store.db, runQuery, hq, hsel, cursor_cons, ha, Store.authorOf]

theorem getAuthorForCourse_none (s : Store) (fail : Query → Option Error) (cID : Int)
    (h : (getAuthorForCourse cID (s.db fail)).2 = none) : s.authorOk fail cID := by
  simp only [getAuthorForCourse, Store.db, runQuery] at h
  cases hq : fail (Query.author cID) with
  | some e => rw [hq] at h; simp at h
  | none =>
    rw [hq] at h
    cases hsel : s.selectAuthors cID with
    | nil => rw [hsel] at h; simp [cursor_nil] at h
    | cons a rest =>
      rw [hsel, cursor_cons] at h
      cases ha : a.scanErr with
      | some e => rw [ha] at h; simp at h
      | none => exact ⟨hq, a, rest, hsel, ha⟩

theorem getModulesForCourse_ok (s : Store) (fail : Query → Option Error) (cID : Int)
    (c : Course) (ha : s.authorOk fail cID) (hm : s.modulesOk fail cID) :
    getModulesForCourse cID c (s.db fail) =
      ({ c with Modules := c.Modules ++
          s.modulesFrom (s.authorOf cID) 1 (s.selectModules cID) }, none) := by
  unfold getModulesForCourse
  rw [getAuthorForCourse_ok s fail cID ha]
  simp only []
  have hq : (s.db fail).moduleQuery cID = Except.ok
      (cursor ModuleRow.scanErr (fun r => (r.Z_PK, r.ZTITLE, r.ZID)) (s.selectModules cID)) := by
    simp [Store.db, runQuery, hm.1]
  rw [hq]
  exact moduleLoop_ok s fail _ _ _ _ hm.2

theorem getModulesForCourse_none (s : Store) (fail : Query → Option Error) (cID : Int)
    (c : Course) (h : (getModulesForCourse cID c (s.db fail)).2 = none) :
    s.authorOk fail cID ∧ s.modulesOk fail cID := by
  unfold getModulesForCourse at h
  cases hg : getAuthorForCourse cID (s.db fail) with
  | mk author e =>
    rw [hg] at h
    cases e with
    | some e => simp at h
    | none =>
      have ha : s.authorOk fail cID := getAuthorForCourse_none s fail cID (by rw [hg])
      refine ⟨ha, ?_⟩
      simp only [] at h
      cases hq : fail (Query.modules cID) with
      | some e =>
        have : (s.db fail).moduleQuery cID = Except.error e := by
          simp [Store.db, runQuery, hq]
        rw [this] at h; simp at h
      | none =>
        have hq2 : (s.db fail).moduleQuery cID = Except.ok
            (cursor ModuleRow.scanErr (fun r => (r.Z_PK, r.ZTITLE, r.ZID))
              (s.selectModules cID)) := by
          simp [Store.db, runQuery, hq]
        rw [hq2] at h
        exact ⟨hq, moduleLoop_none s fail _ _ _ _ h⟩

theorem courseLoop_acc (db : DB) (rows : Rows (Int × String × String)) :
    ∀ acc : List Course,
      courseLoop db acc rows = (acc ++ (courseLoop db [] rows).1, (courseLoop db [] rows).2) := by
  induction rows with
  | nil => intro acc; simp [courseLoop]
  | cons x xs ih =>
    intro acc
    cases x with
    | error e => simp [courseLoop]
    | ok v =>
      obtain ⟨id, title, uid⟩ := v
      simp only [courseLoop]
      cases hg : getModulesForCourse id { Title := title, ID := uid, Modules := [] } db with
      | mk course e =>
        cases e with
        | some e => simp
        | none =>
          simp only []
          rw [ih (acc ++ [course]), ih ([] ++ [course])]
          simp

theorem courseLoop_append (db : DB) (xs ys : Rows (Int × String × String)) :
    ∀ acc : List Course,
      courseLoop db acc (xs ++ ys) =
        (match courseLoop db acc xs with
          | (cs, none) => courseLoop db cs ys
          | (cs, some e) => (cs, some e)) := by
  induction xs with
  | nil => intro acc; simp [courseLoop]
  | cons x xs ih =>
    intro acc
    cases x with
    | error e => simp [courseLoop]
    | ok v =>
      obtain ⟨id, title, uid⟩ := v
      simp only [List.cons_append, courseLoop]
      cases hg : getModulesForCourse id { Title := title, ID := uid, Modules := [] } db with
      | mk course e =>
        cases e with
        | some e => simp
        | none => simp only []; exact ih _

/-! ## Lemmas on the store -/

theorem mem_selectClips (s : Store) (modID : Int) (k : ClipRow) :
    k ∈ s.selectClips modID ↔ k ∈ s.ZCLIPCD ∧ k.ZMODULE = modID := by
  simp [Store.selectClips, List.mem_insertionSort]

theorem mem_selectModules (s : Store) (cID : Int) (m : ModuleRow) :
    m ∈ s.selectModules cID ↔ m ∈ s.ZMODULECD ∧ m.ZCOURSE = cID := by
  simp [Store.selectModules, List.mem_insertionSort]

theorem mem_selectAuthors (s : Store) (cID : Int) (a : AuthorRow) :
    a ∈ s.selectAuthors cID ↔ a ∈ s.ZAUTHORHEADERCD ∧ a.Z_PK ∈ s.authorKeys cID := by
  simp [Store.selectAuthors]

theorem mem_authorKeys (s : Store) (cID key : Int) :
    key ∈ s.authorKeys cID ↔
      ∃ l ∈ s.Z_3COURSEHEADERS, l.Z_14COURSEHEADERS = cID ∧ l.Z_3AUTHORS = key := by
  simp [Store.authorKeys, and_assoc]

theorem courseOk_of_allScan (s : Store) (hs : s.allScan) (r : CourseRow)
    (hr : r ∈ s.ZCOURSEHEADERCD) (ha : s.hasAuthor r.Z_PK) : s.courseOk noFail r := by
  obtain ⟨hc, hm, hk, hau⟩ := hs
  refine ⟨hc r hr, ⟨rfl, ?_⟩, rfl, ?_⟩
  · obtain ⟨l, hl, hlc, a, ha, hal⟩ := ha
    have hmem : a ∈ s.selectAuthors r.Z_PK :=
      (mem_selectAuthors s _ a).2 ⟨ha, (mem_authorKeys s _ _).2 ⟨l, hl, hlc, hal.symm⟩⟩
    cases hsel : s.selectAuthors r.Z_PK with
    | nil => rw [hsel] at hmem; cases hmem
    | cons b rest =>
      refine ⟨b, rest, rfl, hau b ?_⟩
      have : b ∈ s.selectAuthors r.Z_PK := by rw [hsel]; exact List.mem_cons_self _ _
      exact ((mem_selectAuthors s _ b).1 this).1
  · intro m hmm
    refine ⟨hm m ((mem_selectModules s _ m).1 hmm).1, rfl, ?_⟩
    intro k hkk
    exact hk k ((mem_selectClips s _ k).1 hkk).1

theorem courseLoop_store (s : Store) (fail : Query → Option Error) (rows : List CourseRow) :
    ∀ acc : List Course, (∀ r ∈ rows, s.courseOk fail r) →
      courseLoop (s.db fail) acc (courseCursor rows) = (acc ++ rows.map s.courseOf, none) := by
  induction rows with
  | nil => intro acc _; simp [courseCursor, cursor_nil, courseLoop]
  | cons r rs ih =>
    intro acc h
    obtain ⟨hr, ha, hm⟩ := h r (List.mem_cons_self _ _)
    have hrs : ∀ x ∈ rs, s.courseOk fail x := fun x hx => h x (List.mem_cons_of_mem _ hx)
    unfold courseCursor
    rw [cursor_cons, hr]
    simp only [courseLoop]
    rw [getModulesForCourse_ok s fail _ _ ha hm]
    simp only []
    have := ih (acc ++ [s.courseOf r]) hrs
    unfold courseCursor at this
    simpa [Store.courseOf] using this

theorem courseLoop_store_none (s : Store) (fail : Query → Option Error) (rows : List CourseRow) :
    ∀ acc : List Course, (courseLoop (s.db fail) acc (courseCursor rows)).2 = none →
      ∀ r ∈ rows, s.courseOk fail r := by
  induction rows with
  | nil => intro _ _ r hr; cases hr
  | cons r rs ih =>
    intro acc h x hx
    unfold courseCursor at h
    rw [cursor_cons] at h
    cases hr : r.scanErr with
    | some e => rw [hr] at h; simp [courseLoop] at h
    | none =>
      rw [hr] at h
      simp only [courseLoop] at h
      cases hg : getModulesForCourse r.Z_PK { Title := r.ZTITLE, ID := r.ZID, Modules := [] }
          (s.db fail) with
      | mk course e =>
        rw [hg] at h
        cases e with
        | some e => simp at h
        | none =>
          simp only [] at h
          have hok := getModulesForCourse_none s fail _ _ (by rw [hg])
          rcases List.mem_cons.mp hx with rfl | hx
          · exact ⟨hr, hok.1, hok.2⟩
          · exact ih _ h x hx

theorem FindAll_store (s : Store) (fail : Query → Option Error) (repo : CourseRepository)
    (hq : fail Query.courses = none) :
    FindAll (sqlOpenOn s fail) repo =
      courseLoop (s.db fail) [] (courseCursor s.ZCOURSEHEADERCD) := by
  have h : (s.db fail).courseQuery = Except.ok (courseCursor s.ZCOURSEHEADERCD) := by
    simp [Store.db, runQuery, hq, courseCursor]
  unfold FindAll sqlOpenOn
  simp only []
  rw [h]

theorem FindAll_store_fail (s : Store) (fail : Query → Option Error) (repo : CourseRepository)
    (e : Error) (hq : fail Query.courses = some e) :
    FindAll (sqlOpenOn s fail) repo = ([], some e) := by
  have h : (s.db fail).courseQuery = Except.error e := by
    simp [Store.db, runQuery, hq]
  unfold FindAll sqlOpenOn
  simp only []
  rw [h]

theorem courseCursor_append (xs ys : List CourseRow) :
    courseCursor (xs ++ ys) = courseCursor xs ++ courseCursor ys := by
  simp [courseCursor, cursor]

theorem modulesFrom_withCourses (s : Store) (rows : List CourseRow) (author : String)
    (ms : List ModuleRow) :
    ∀ ord : Int, (s.withCourses rows).modulesFrom author ord ms = s.modulesFrom author ord ms := by
  induction ms with
  | nil => intro ord; rfl
  | cons m ms ih =>
    intro ord
    simp only [Store.modulesFrom, ih]
    rfl

theorem courseOf_withCourses (s : Store) (rows : List CourseRow) (r : CourseRow) :
    (s.withCourses rows).courseOf r = s.courseOf r := by
  simp only [Store.courseOf, modulesFrom_withCourses]
  rfl

theorem courseOk_withCourses (s : Store) (fail : Query → Option Error) (rows : List CourseRow)
    (r : CourseRow) : (s.withCourses rows).courseOk fail r ↔ s.courseOk fail r := Iff.rfl

theorem FindAll_prefix_ok (s : Store) (fail : Query → Option Error) (repo : CourseRepository)
    (pre : List CourseRow)
    (hpre : (FindAll (sqlOpenOn (s.withCourses pre) fail) repo).2 = none) :
    fail Query.courses = none ∧ (∀ x ∈ pre, s.courseOk fail x) ∧
      FindAll (sqlOpenOn (s.withCourses pre) fail) repo = (pre.map s.courseOf, none) := by
  cases hq : fail Query.courses with
  | some e => rw [FindAll_store_fail _ fail repo e hq] at hpre; simp at hpre
  | none =>
    rw [FindAll_store _ fail repo hq] at hpre
    have hok : ∀ x ∈ pre, (s.withCourses pre).courseOk fail x :=
      courseLoop_store_none (s.withCourses pre) fail pre [] hpre
    refine ⟨rfl, fun x hx => (courseOk_withCourses s fail pre x).1 (hok x hx), ?_⟩
    rw [FindAll_store _ fail repo hq]
    have h2 := courseLoop_store (s.withCourses pre) fail pre [] hok
    rw [List.nil_append] at h2
    have h3 : pre.map (s.withCourses pre).courseOf = pre.map s.courseOf :=
      List.map_congr_left (fun x _ => courseOf_withCourses s pre x)
    rw [h3] at h2
    exact h2

theorem FindAll_split (s : Store) (fail : Query → Option Error) (repo : CourseRepository)
    (pre rest : List CourseRow) (hrows : s.ZCOURSEHEADERCD = pre ++ rest)
    (hq : fail Query.courses = none) (hok : ∀ x ∈ pre, s.courseOk fail x) :
    FindAll (sqlOpenOn s fail) repo =
      courseLoop (s.db fail) (pre.map s.courseOf) (courseCursor rest) := by
  rw [FindAll_store s fail repo hq, hrows, courseCursor_append, courseLoop_append,
    courseLoop_store s fail pre [] hok]
  simp

theorem courseLoop_processed (s : Store) (fail : Query → Option Error) (rows : List CourseRow) :
    ∀ acc : List Course, ∃ pre : List CourseRow, pre <+: rows ∧
      (∀ r ∈ pre, s.courseOk fail r) ∧
      (courseLoop (s.db fail) acc (courseCursor rows)).1 = acc ++ pre.map s.courseOf := by
  induction rows with
  | nil => intro acc; exact ⟨[], List.nil_prefix, by simp, by simp [courseCursor, cursor_nil, courseLoop]⟩
  | cons r rs ih =>
    intro acc
    unfold courseCursor
    rw [cursor_cons]
    cases hr : r.scanErr with
    | some e => exact ⟨[], List.nil_prefix, by simp, by simp [courseLoop]⟩
    | none =>
      simp only [courseLoop]
      cases hg : getModulesForCourse r.Z_PK { Title := r.ZTITLE, ID := r.ZID, Modules := [] }
          (s.db fail) with
      | mk course e =>
        cases e with
        | some e => exact ⟨[], List.nil_prefix, by simp, by simp⟩
        | none =>
          have hok := getModulesForCourse_none s fail r.Z_PK
            { Title := r.ZTITLE, ID := r.ZID, Modules := [] } (by rw [hg])
          have hc : course = s.courseOf r := by
            have h2 := getModulesForCourse_ok s fail r.Z_PK
              { Title := r.ZTITLE, ID := r.ZID, Modules := [] } hok.1 hok.2
            rw [hg] at h2
            simpa [Store.courseOf] using congrArg Prod.fst h2
          obtain ⟨pre, hpre, hall, hres⟩ := ih (acc ++ [course])
          refine ⟨r :: pre, (List.prefix_cons_inj r).2 hpre, ?_, ?_⟩
          · intro x hx
            rcases List.mem_cons.mp hx with rfl | hx
            · exact ⟨hr, hok.1, hok.2⟩
            · exact hall x hx
          · simp only []
            unfold courseCursor at hres
            rw [hres, hc]
            simp

theorem FindAll_courses (s : Store) (fail : Query → Option Error) (repo : CourseRepository) :
    ∃ pre : List CourseRow, pre <+: s.ZCOURSEHEADERCD ∧ (∀ r ∈ pre, s.courseOk fail r) ∧
      (FindAll (sqlOpenOn s fail) repo).1 = pre.map s.courseOf := by
  cases hq : fail Query.courses with
  | some e =>
    exact ⟨[], List.nil_prefix, by simp, by rw [FindAll_store_fail s fail repo e hq]; rfl⟩
  | none =>
    obtain ⟨pre, hpre, hall, hres⟩ := courseLoop_processed s fail s.ZCOURSEHEADERCD []
    exact ⟨pre, hpre, hall, by rw [FindAll_store s fail repo hq, hres]; simp⟩

theorem find?_of_filter_eq_cons {α : Type} (p : α → Bool) (l : List α) (a : α) (rest : List α)
    (h : l.filter p = a :: rest) : l.find? p = some a := by
  induction l with
  | nil => simp at h
  | cons x xs ih =>
    cases hp : p x with
    | true =>
      rw [List.filter_cons_of_pos hp] at h
      rw [List.find?_cons_of_pos _ hp]
      exact congrArg some (List.cons.inj h).1
    | false =>
      have hn : ¬ p x = true := by simp [hp]
      rw [List.filter_cons_of_neg hn] at h
      rw [List.find?_cons_of_neg _ hn]
      exact ih h

theorem modulesFrom_author (s : Store) (author : String) (rows : List ModuleRow) :
    ∀ ord : Int, ∀ md ∈ s.modulesFrom author ord rows, md.Author = author := by
  induction rows with
  | nil => intro _ md hmd; simp [Store.modulesFrom] at hmd
  | cons r rs ih =>
    intro ord md hmd
    simp only [Store.modulesFrom, List.mem_cons] at hmd
    rcases hmd with rfl | hmd
    · rfl
    · exact ih _ md hmd

/-! ## Counting clips -/

theorem getClipsForModule_withCourses (s : Store) (rows : List CourseRow)
    (fail : Query → Option Error) (modID : Int) (mod : Module) :
    getClipsForModule modID mod ((s.withCourses rows).db fail) =
      getClipsForModule modID mod (s.db fail) := rfl

theorem getAuthorForCourse_withCourses (s : Store) (rows : List CourseRow)
    (fail : Query → Option Error) (cID : Int) :
    getAuthorForCourse cID ((s.withCourses rows).db fail) =
      getAuthorForCourse cID (s.db fail) := rfl

theorem moduleQuery_withCourses (s : Store) (rows : List CourseRow)
    (fail : Query → Option Error) (cID : Int) :
    ((s.withCourses rows).db fail).moduleQuery cID = (s.db fail).moduleQuery cID := rfl

theorem moduleLoop_withCourses (s : Store) (rows : List CourseRow)
    (fail : Query → Option Error) (author : String) (raw : Rows (Int × String × String)) :
    ∀ (ord : Int) (c : Course),
      moduleLoop ((s.withCourses rows).db fail) author ord c raw =
        moduleLoop (s.db fail) author ord c raw := by
  induction raw with
  | nil => intro _ _; rfl
  | cons x xs ih =>
    intro ord c
    cases x with
    | error e => rfl
    | ok v =>
      obtain ⟨id, title, uid⟩ := v
      simp only [moduleLoop, getClipsForModule_withCourses, ih]

theorem getModulesForCourse_withCourses (s : Store) (rows : List CourseRow)
    (fail : Query → Option Error) (cID : Int) (c : Course) :
    getModulesForCourse cID c ((s.withCourses rows).db fail) =
      getModulesForCourse cID c (s.db fail) := by
  simp only [getModulesForCourse, getAuthorForCourse_withCourses, moduleQuery_withCourses,
    moduleLoop_withCourses]

theorem courseLoop_withCourses (s : Store) (rows : List CourseRow)
    (fail : Query → Option Error) (raw : Rows (Int × String × String)) :
    ∀ acc : List Course,
      courseLoop ((s.withCourses rows).db fail) acc raw = courseLoop (s.db fail) acc raw := by
  induction raw with
  | nil => intro _; rfl
  | cons x xs ih =>
    intro acc
    cases x with
    | error e => rfl
    | ok v =>
      obtain ⟨id, title, uid⟩ := v
      simp only [courseLoop, getModulesForCourse_withCourses, ih]

theorem ClipCount_store (s : Store) (fail : Query → Option Error) (repo : CourseRepository) :
    ClipCount (sqlOpenOn s fail) repo =
      (match fail Query.count with
        | some e => (-1, some e)
        | none => ((s.ZCLIPCD.length : Int), none)) := by
  cases hq : fail Query.count <;>
    simp [ClipCount, sqlOpenOn, Store.db, runQuery, hq, unknownCount]

/-! ## Lemmas on failing row iterations -/

theorem dbIter_noStop (s : Store) (fail : Query → Option Error) :
    s.dbIter fail noStop = s.db fail := rfl

/-- C1: on a store in which no query and no row scan fails and every course has
an author, `FindAll` returns no error and one `Course` per course row, in row
order, each with the title and the external id (`ZID`) of its row; with no
course row the result is the empty sequence and no error. -/
theorem C1_findAll_one_course_per_row (s : Store) (repo : CourseRepository)
    (hscan : s.allScan) (hauthor : ∀ r ∈ s.ZCOURSEHEADERCD, s.hasAuthor r.Z_PK) :
    (FindAll (sqlOpenOn s noFail) repo).2 = none ∧
      List.Forall₂ (fun (row : CourseRow) (c : Course) => c.Title = row.ZTITLE ∧ c.ID = row.ZID)
        s.ZCOURSEHEADERCD (FindAll (sqlOpenOn s noFail) repo).1 ∧
      (s.ZCOURSEHEADERCD = [] → FindAll (sqlOpenOn s noFail) repo = ([], none)) := by
  have hok : ∀ r ∈ s.ZCOURSEHEADERCD, s.courseOk noFail r :=
    fun r hr => courseOk_of_allScan s hscan r hr (hauthor r hr)
  have hF : FindAll (sqlOpenOn s noFail) repo = (s.ZCOURSEHEADERCD.map s.courseOf, none) := by
    rw [FindAll_store s noFail repo rfl, courseLoop_store s noFail _ [] hok]
    simp
  refine ⟨by rw [hF], ?_, ?_⟩
  · rw [hF]
    simp only [List.forall₂_map_right_iff]
    exact List.forall₂_same.2 (fun r _ => ⟨rfl, rfl⟩)
  · intro h0
    rw [hF, h0]
    rfl

/-- C2: when the rows before a course row are processed without any failure,
the row scans, its author query does not fail and no association row names the
course, `FindAll` returns `ErrNoAuthor` itself together with exactly the courses
of the preceding rows (one per row, each of them a course that has an
association row); the course and all later ones are absent. -/
theorem C2_first_course_without_author (s : Store) (fail : Query → Option Error)
    (repo : CourseRepository) (pre post : List CourseRow) (r : CourseRow)
    (hrows : s.ZCOURSEHEADERCD = pre ++ r :: post)
    (hpre : (FindAll (sqlOpenOn (s.withCourses pre) fail) repo).2 = none)
    (hscan : r.scanErr = none) (hquery : fail (Query.author r.Z_PK) = none)
    (hnone : ∀ l ∈ s.Z_3COURSEHEADERS, l.Z_14COURSEHEADERS ≠ r.Z_PK) :
    FindAll (sqlOpenOn s fail) repo =
        ((FindAll (sqlOpenOn (s.withCourses pre) fail) repo).1, some Error.ErrNoAuthor) ∧
      (FindAll (sqlOpenOn s fail) repo).1 = pre.map s.courseOf ∧
      (FindAll (sqlOpenOn s fail) repo).1.length = pre.length ∧
      (∀ x ∈ pre, ∃ l ∈ s.Z_3COURSEHEADERS, l.Z_14COURSEHEADERS = x.Z_PK) := by
  obtain ⟨hq, hok, hF⟩ := FindAll_prefix_ok s fail repo pre hpre
  have hkeys : s.authorKeys r.Z_PK = [] := by
    simp only [Store.authorKeys, List.map_eq_nil_iff, List.filter_eq_nil_iff]
    intro l hl
    simpa using hnone l hl
  have hsel : s.selectAuthors r.Z_PK = [] := by
    simp [Store.selectAuthors, hkeys]
  have hauth : getAuthorForCourse r.Z_PK (s.db fail) = (unknownStr, some Error.ErrNoAuthor) := by
    simp [getAuthorForCourse, Store.db, runQuery, hquery, hsel, cursor_nil]
  have hmain : FindAll (sqlOpenOn s fail) repo = (pre.map s.courseOf, some Error.ErrNoAuthor) := by
    rw [FindAll_split s fail repo pre (r :: post) hrows hq hok]
    unfold courseCursor
    rw [cursor_cons, hscan]
    simp only [courseLoop, getModulesForCourse, hauth]
  refine ⟨by rw [hmain, hF], by rw [hmain], by rw [hmain]; simp, ?_⟩
  intro x hx
  obtain ⟨_, ⟨_, a, rest, hsa, _⟩, _⟩ := hok x hx
  have ha : a ∈ s.selectAuthors x.Z_PK := by rw [hsa]; exact List.mem_cons_self _ _
  obtain ⟨l, hl, hlc, _⟩ := (mem_authorKeys s _ _).1 ((mem_selectAuthors s _ a).1 ha).2
  exact ⟨l, hl, hlc⟩

/-- C5: for every course `FindAll` returns, `getAuthorForCourse` on its row's
key succeeds with the name of the first row of the author table whose key is
among the association rows of the course, and every module of the course
carries that name. -/
theorem C5_modules_carry_course_author (s : Store) (fail : Query → Option Error)
    (repo : CourseRepository) :
    ∃ pre : List CourseRow, pre <+: s.ZCOURSEHEADERCD ∧
      List.Forall₂ (fun (row : CourseRow) (c : Course) =>
        ∃ a : AuthorRow,
          s.ZAUTHORHEADERCD.find? (fun a => a.Z_PK ∈ s.authorKeys row.Z_PK) = some a ∧
          getAuthorForCourse row.Z_PK (s.db fail) = (a.ZID, none) ∧
          ∀ md ∈ c.Modules, md.Author = a.ZID)
        pre (FindAll (sqlOpenOn s fail) repo).1 := by
  obtain ⟨pre, hpre, hok, hres⟩ := FindAll_courses s fail repo
  refine ⟨pre, hpre, ?_⟩
  rw [hres, List.forall₂_map_right_iff]
  refine List.forall₂_same.2 (fun r hr => ?_)
  obtain ⟨_, hauth, _⟩ := hok r hr
  have hname := getAuthorForCourse_ok s fail r.Z_PK hauth
  obtain ⟨_, a, rest, hsel, _⟩ := hauth
  have hof : s.authorOf r.Z_PK = a.ZID := by simp [Store.authorOf, hsel]
  refine ⟨a, ?_, by rw [hname, hof], ?_⟩
  · exact find?_of_filter_eq_cons _ _ a rest hsel
  · intro md hmd
    rw [← hof]
    exact modulesFrom_author s _ _ 1 md hmd

/-- C6: when the count query does not fail, `ClipCount` returns, with no error,
the number of rows of the clip table, whatever the other tables hold. -/
theorem C6_clipCount_is_table_size (s : Store) (fail : Query → Option Error)
    (repo : CourseRepository) (hquery : fail Query.count = none) :
    ClipCount (sqlOpenOn s fail) repo = ((s.ZCLIPCD.length : Int), none) := by
  rw [ClipCount_store, hquery]

/-- C7: `ClipCount` returns `-1` whenever it returns an error, on each of its
four failing paths (open fails, query fails, no row, scan fails); with no error
it returns the scanned count, which on a store is non-negative. -/
theorem C7_clipCount_sentinel :
    (∀ (sqlOpen : String → Except Error DB) (repo : CourseRepository),
      (ClipCount sqlOpen repo).2 ≠ none → (ClipCount sqlOpen repo).1 = -1) ∧
    (∀ (sqlOpen : String → Except Error DB) (repo : CourseRepository) (e : Error),
      sqlOpen repo.Path = Except.error e → ClipCount sqlOpen repo = (-1, some e)) ∧
    (∀ (sqlOpen : String → Except Error DB) (repo : CourseRepository) (db : DB) (e : Error),
      sqlOpen repo.Path = Except.ok db → db.countQuery = Except.error e →
        ClipCount sqlOpen repo = (-1, some e)) ∧
    (∀ (sqlOpen : String → Except Error DB) (repo : CourseRepository) (db : DB),
      sqlOpen repo.Path = Except.ok db → db.countQuery = Except.ok [] →
        ClipCount sqlOpen repo = (-1, some Error.ErrNoRows)) ∧
    (∀ (sqlOpen : String → Except Error DB) (repo : CourseRepository) (db : DB) (e : Error)
      (rest : Rows Int),
      sqlOpen repo.Path = Except.ok db → db.countQuery = Except.ok (Except.error e :: rest) →
        ClipCount sqlOpen repo = (-1, some e)) ∧
    (∀ (sqlOpen : String → Except Error DB) (repo : CourseRepository),
      (ClipCount sqlOpen repo).2 = none →
        ∃ db rest, sqlOpen repo.Path = Except.ok db ∧
          db.countQuery = Except.ok (Except.ok (ClipCount sqlOpen repo).1 :: rest)) ∧
    (∀ (s : Store) (fail : Query → Option Error) (repo : CourseRepository),
      (ClipCount (sqlOpenOn s fail) repo).2 = none →
        0 ≤ (ClipCount (sqlOpenOn s fail) repo).1) := by
  refine ⟨?_, ?_, ?_, ?_, ?_, ?_, ?_⟩
  · intro sqlOpen repo h
    unfold ClipCount at h ⊢
    cases ho : sqlOpen repo.Path with
    | error e => simp [unknownCount]
    | ok db =>
      rw [ho] at h
      simp only [] at h ⊢
      cases hc : db.countQuery with
      | error e => simp [unknownCount]
      | ok rows =>
        rw [hc] at h
        cases rows with
        | nil => simp [unknownCount]
        | cons x xs =>
          cases x with
          | error e => simp [unknownCount]
          | ok n => simp at h
  · intro sqlOpen repo e ho
    simp [ClipCount, ho, unknownCount]
  · intro sqlOpen repo db e ho hc
    simp [ClipCount, ho, hc, unknownCount]
  · intro sqlOpen repo db ho hc
    simp [ClipCount, ho, hc, unknownCount]
  · intro sqlOpen repo db e rest ho hc
    simp [ClipCount, ho, hc, unknownCount]
  · intro sqlOpen repo h
    unfold ClipCount at h ⊢
    cases ho : sqlOpen repo.Path with
    | error e => rw [ho] at h; simp at h
    | ok db =>
      rw [ho] at h
      simp only [] at h ⊢
      cases hc : db.countQuery with
      | error e => rw [hc] at h; simp at h
      | ok rows =>
        rw [hc] at h
        cases rows with
        | nil => simp at h
        | cons x xs =>
          cases x with
          | error e => simp at h
          | ok n => exact ⟨db, xs, rfl, hc⟩
  · intro s fail repo h
    cases hq : fail Query.count with
    | some e => simp [ClipCount, sqlOpenOn, Store.db, runQuery, hq] at h
    | none => simp [ClipCount, sqlOpenOn, Store.db, runQuery, hq]

/-- C9, the claim as stated fails: course 7 of `emptyCourseStore` has an author
that resolves and no module row, yet when its module query fails `FindAll`
returns that error and no course. -/
theorem C9_counterexample_module_query_fails :
    (getAuthorForCourse 7 (emptyCourseStore.db moduleQueryFails)).2 = none ∧
      (∀ m ∈ emptyCourseStore.ZMODULECD, m.ZCOURSE ≠ 7) ∧
      FindAll (sqlOpenOn emptyCourseStore moduleQueryFails) library =
        ([], some (Error.driver 1)) := by
  decide

/-- C9, amended: for a course row that scans, whose author resolves, whose
module query does not fail and that has no module row with its key,
`getModulesForCourse` returns no error and leaves the module sequence empty;
when the rows before it were processed without failure, `FindAll` returns their
courses, then this course with no module, then whatever it returns on the later
rows alone, error included. -/
theorem C9_course_without_modules (s : Store) (fail : Query → Option Error)
    (repo : CourseRepository) (pre post : List CourseRow) (r : CourseRow)
    (hrows : s.ZCOURSEHEADERCD = pre ++ r :: post)
    (hpre : (FindAll (sqlOpenOn (s.withCourses pre) fail) repo).2 = none)
    (hscan : r.scanErr = none)
    (hauthor : (getAuthorForCourse r.Z_PK (s.db fail)).2 = none)
    (hquery : fail (Query.modules r.Z_PK) = none)
    (hnone : ∀ m ∈ s.ZMODULECD, m.ZCOURSE ≠ r.Z_PK) :
    getModulesForCourse r.Z_PK { Title := r.ZTITLE, ID := r.ZID, Modules := [] } (s.db fail) =
        ({ Title := r.ZTITLE, ID := r.ZID, Modules := [] }, none) ∧
      FindAll (sqlOpenOn s fail) repo =
        ((FindAll (sqlOpenOn (s.withCourses pre) fail) repo).1 ++
            { Title := r.ZTITLE, ID := r.ZID, Modules := [] } ::
              (FindAll (sqlOpenOn (s.withCourses post) fail) repo).1,
          (FindAll (sqlOpenOn (s.withCourses post) fail) repo).2) := by
  obtain ⟨hq, hok, hF⟩ := FindAll_prefix_ok s fail repo pre hpre
  have hsel : s.selectModules r.Z_PK = [] := by
    have : s.ZMODULECD.filter (fun m => m.ZCOURSE = r.Z_PK) = [] := by
      rw [List.filter_eq_nil_iff]
      intro m hm
      simpa using hnone m hm
    simp [Store.selectModules, this]
  have ha : s.authorOk fail r.Z_PK := getAuthorForCourse_none s fail _ hauthor
  have hmods : s.modulesOk fail r.Z_PK := ⟨hquery, by rw [hsel]; intro m hm; cases hm⟩
  have hg : getModulesForCourse r.Z_PK { Title := r.ZTITLE, ID := r.ZID, Modules := [] }
      (s.db fail) = ({ Title := r.ZTITLE, ID := r.ZID, Modules := [] }, none) := by
    rw [getModulesForCourse_ok s fail _ _ ha hmods, hsel]
    simp [Store.modulesFrom]
  refine ⟨hg, ?_⟩
  rw [FindAll_split s fail repo pre (r :: post) hrows hq hok, hF,
    FindAll_store (s.withCourses post) fail repo hq, courseLoop_withCourses]
  unfold courseCursor
  rw [cursor_cons, hscan]
  simp only [courseLoop, hg]
  rw [courseLoop_acc]
  simp [courseCursor, Store.withCourses]

/-- C1 at the example store. -/
theorem C1_witness_example_store :
    exampleStore.allScan ∧ (∀ r ∈ exampleStore.ZCOURSEHEADERCD, exampleStore.hasAuthor r.Z_PK) ∧
      (FindAll (sqlOpenOn exampleStore noFail) library).2 = none ∧
      List.Forall₂ (fun (row : CourseRow) (c : Course) => c.Title = row.ZTITLE ∧ c.ID = row.ZID)
        exampleStore.ZCOURSEHEADERCD (FindAll (sqlOpenOn exampleStore noFail) library).1 ∧
      (exampleStore.ZCOURSEHEADERCD = [] →
        FindAll (sqlOpenOn exampleStore noFail) library = ([], none)) :=
  ⟨by decide, by decide,
    C1_findAll_one_course_per_row exampleStore library (by decide) (by decide)⟩

/-- C2 at `missingAuthorStore`: course 8 is the first without an association row. -/
theorem C2_witness_missing_author :
    (∀ l ∈ missingAuthorStore.Z_3COURSEHEADERS, l.Z_14COURSEHEADERS ≠ 8) ∧
      FindAll (sqlOpenOn missingAuthorStore noFail) library =
        ([⟨"Go", "C1", [⟨1, "Basics", "M1", "Jane", [⟨1, "Intro", "K1"⟩]⟩]⟩],
          some Error.ErrNoAuthor) :=
  ⟨by decide,
    (C2_first_course_without_author missingAuthorStore noFail library
      [{ Z_PK := 7, ZTITLE := "Go", ZID := "C1" }] [{ Z_PK := 9, ZTITLE := "Zig", ZID := "C3" }]
      { Z_PK := 8, ZTITLE := "Rust", ZID := "C2" } rfl (by decide) rfl rfl (by decide)).1.trans
      (by decide)⟩

/-- C6 at the example store, which has three clip rows. -/
theorem C6_witness_example_store :
    noFail Query.count = none ∧
      ClipCount (sqlOpenOn exampleStore noFail) library = (3, none) :=
  ⟨rfl, C6_clipCount_is_table_size exampleStore noFail library rfl⟩

/-- C9 (amended) at `emptyCourseStore`: course 7 comes out with no module and
course 8 follows. -/
theorem C9_witness_empty_course :
    (getAuthorForCourse 7 (emptyCourseStore.db noFail)).2 = none ∧
      (∀ m ∈ emptyCourseStore.ZMODULECD, m.ZCOURSE ≠ 7) ∧
      FindAll (sqlOpenOn emptyCourseStore noFail) library =
        ([⟨"Go", "C1", []⟩,
          ⟨"Rust", "C2", [⟨1, "Ownership", "M2", "Jane", [⟨1, "Move", "K2"⟩]⟩]⟩], none) :=
  ⟨by decide, by decide,
    (C9_course_without_modules emptyCourseStore noFail library
      [] [{ Z_PK := 8, ZTITLE := "Rust", ZID := "C2" }]
      { Z_PK := 7, ZTITLE := "Go", ZID := "C1" } rfl (by decide) rfl (by decide) rfl
      (by decide)).2.trans (by decide)⟩

end Pluralsight
